import Mathlib

/-!
Verification of the Mergington High School activities backend (`src/app.py`)
and the issue-seeding utility (`create_issues.py`).

The SQLite store is embedded as two lists mirroring the two tables:
`activities` (rows of the `activities` table, `name` is the primary key) and
`participants` (rows of the `participants` table, in insertion order, primary
key the pair `(activity_name, email)`).  SQL queries on these tables become
`List.find?` / `List.filter` / membership on the lists; the HTTP error raises
become `Except.error` carrying status code and detail.
-/

/-- A row of the `activities` table. -/
structure Activity where
  name : String
  description : String
  schedule : String
  max_participants : Nat
deriving DecidableEq, Repr

/-- The persistent store: the two tables of the SQLite database.
`participants` rows are kept in insertion order, as SQLite returns them. -/
structure Store where
  activities : List Activity
  participants : List (String × String)
deriving DecidableEq, Repr

/-- An `HTTPException(status_code, detail)` raised by an endpoint. -/
structure HTTPError where
  status_code : Nat
  detail : String
deriving DecidableEq, Repr

/-- The error `HTTPException(status_code=404, detail="Activity not found")`. -/
def notFoundErr : HTTPError := ⟨404, "Activity not found"⟩

/-- The error `HTTPException(status_code=400, detail="Student is already signed up")`. -/
def alreadyRegisteredErr : HTTPError := ⟨400, "Student is already signed up"⟩

/-- The error `HTTPException(status_code=400, detail="Activity is full")`. -/
def fullErr : HTTPError := ⟨400, "Activity is full"⟩

/-- The error raised when the registration to delete does not exist:
`HTTPException(status_code=400, detail="Student is not signed up for this activity")`. -/
def notRegisteredErr : HTTPError := ⟨400, "Student is not signed up for this activity"⟩

/-- The query `SELECT ... FROM activities WHERE name = ?` followed by `fetchone()`:
the first row of the activities table with the given name, if any. -/
def lookupActivity (s : Store) (activity_name : String) : Option Activity :=
  s.activities.find? (fun a => decide (a.name = activity_name))

/-- The query `SELECT COUNT(*) FROM participants WHERE activity_name = ?`. -/
def registrant_count (s : Store) (activity_name : String) : Nat :=
  (s.participants.filter (fun p => decide (p.1 = activity_name))).length

/-- The query `SELECT email FROM participants WHERE activity_name = ?`, rows in stored
(insertion) order. -/
def participantsFor (s : Store) (activity_name : String) : List String :=
  (s.participants.filter (fun p => decide (p.1 = activity_name))).map Prod.snd

/-- The value stored for one key of the mapping returned by the
`GET /activities` endpoint. -/
structure ActivityInfo where
  description : String
  schedule : String
  max_participants : Nat
  participants : List String
deriving DecidableEq, Repr

/-- Function `build_activity_dict` from `app.py`: loop over all activity rows and, for
each, collect its participant emails in stored order. -/
def build_activity_dict (s : Store) : List (String × ActivityInfo) :=
  s.activities.map (fun a =>
    (a.name, ⟨a.description, a.schedule, a.max_participants, participantsFor s a.name⟩))

/-- Endpoint `signup_for_activity` from `app.py`.  Checks, in source order:
activity existence (404), duplicate registration (400), capacity (400);
on success inserts the one row and returns the confirmation message. -/
def signup_for_activity (s : Store) (activity_name email : String) :
    Except HTTPError (Store × String) :=
  match lookupActivity s activity_name with
  | none => .error notFoundErr
  | some act =>
    if (activity_name, email) ∈ s.participants then
      .error alreadyRegisteredErr
    else if registrant_count s activity_name ≥ act.max_participants then
      .error fullErr
    else
      .ok ({ s with participants := s.participants ++ [(activity_name, email)] },
           "Signed up " ++ email ++ " for " ++ activity_name)

/-- Endpoint `unregister_from_activity` from `app.py`.  Checks activity existence (404)
then registration existence (400); on success runs
`DELETE FROM participants WHERE activity_name = ? AND email = ?`. -/
def unregister_from_activity (s : Store) (activity_name email : String) :
    Except HTTPError (Store × String) :=
  match lookupActivity s activity_name with
  | none => .error notFoundErr
  | some _ =>
    if (activity_name, email) ∈ s.participants then
      .ok ({ s with participants :=
               s.participants.filter (fun p => decide (¬(p.1 = activity_name ∧ p.2 = email))) },
           "Unregistered " ++ email ++ " from " ++ activity_name)
    else
      .error notRegisteredErr

/-- The store after a signup request: the new store on success, the old store
when the endpoint raised (no write was committed before any raise). -/
def signupState (s : Store) (activity_name email : String) : Store :=
  match signup_for_activity s activity_name email with
  | .ok (s', _) => s'
  | .error _ => s

/-- The store after an unregister request. -/
def unregisterState (s : Store) (activity_name email : String) : Store :=
  match unregister_from_activity s activity_name email with
  | .ok (s', _) => s'
  | .error _ => s

/-- Constant `INITIAL_ACTIVITIES` from `app.py`, in Python dict literal order. -/
def INITIAL_ACTIVITIES : List (String × ActivityInfo) :=
  [("Chess Club",
    ⟨"Learn strategies and compete in chess tournaments",
     "Fridays, 3:30 PM - 5:00 PM", 12,
     ["michael@mergington.edu", "daniel@mergington.edu"]⟩),
   ("Programming Class",
    ⟨"Learn programming fundamentals and build software projects",
     "Tuesdays and Thursdays, 3:30 PM - 4:30 PM", 20,
     ["emma@mergington.edu", "sophia@mergington.edu"]⟩),
   ("Gym Class",
    ⟨"Physical education and sports activities",
     "Mondays, Wednesdays, Fridays, 2:00 PM - 3:00 PM", 30,
     ["john@mergington.edu", "olivia@mergington.edu"]⟩),
   ("Soccer Team",
    ⟨"Join the school soccer team and compete in matches",
     "Tuesdays and Thursdays, 4:00 PM - 5:30 PM", 22,
     ["liam@mergington.edu", "noah@mergington.edu"]⟩),
   ("Basketball Team",
    ⟨"Practice and play basketball with the school team",
     "Wednesdays and Fridays, 3:30 PM - 5:00 PM", 15,
     ["ava@mergington.edu", "mia@mergington.edu"]⟩),
   ("Art Club",
    ⟨"Explore your creativity through painting and drawing",
     "Thursdays, 3:30 PM - 5:00 PM", 15,
     ["amelia@mergington.edu", "harper@mergington.edu"]⟩),
   ("Drama Club",
    ⟨"Act, direct, and produce plays and performances",
     "Mondays and Wednesdays, 4:00 PM - 5:30 PM", 20,
     ["ella@mergington.edu", "scarlett@mergington.edu"]⟩),
   ("Math Club",
    ⟨"Solve challenging problems and participate in math competitions",
     "Tuesdays, 3:30 PM - 4:30 PM", 10,
     ["james@mergington.edu", "benjamin@mergington.edu"]⟩),
   ("Debate Team",
    ⟨"Develop public speaking and argumentation skills",
     "Fridays, 4:00 PM - 5:30 PM", 12,
     ["charlotte@mergington.edu", "henry@mergington.edu"]⟩)]

/-- The activity rows inserted by the seeding loop of `init_db`, in order. -/
def seed_activities : List Activity :=
  INITIAL_ACTIVITIES.map (fun nd => ⟨nd.1, nd.2.description, nd.2.schedule, nd.2.max_participants⟩)

/-- The participant rows inserted by the seeding loop of `init_db`, in order:
for each activity in turn, its seeded roster. -/
def seed_participants : List (String × String) :=
  (INITIAL_ACTIVITIES.map (fun nd => nd.2.participants.map (fun p => (nd.1, p)))).flatten

/-- Function `init_db` from `app.py`: it runs `SELECT COUNT(*) FROM activities`; when zero,
insert every `INITIAL_ACTIVITIES` entry (activity row, then its roster rows). -/
def init_db (s : Store) : Store :=
  if s.activities.length = 0 then
    { activities := s.activities ++ seed_activities,
      participants := s.participants ++ seed_participants }
  else s

/-- The store at process start: `init_db` run against the empty database. -/
def seededStore : Store := init_db ⟨[], []⟩

/-- Invariant I1: a given `(activity_name, email)` pair appears at most once
in the participants table. -/
def I1 (s : Store) : Prop := s.participants.Nodup

/-- Invariant I2: each activity's registration count is at most its
`max_participants`. -/
def I2 (s : Store) : Prop :=
  ∀ a ∈ s.activities, registrant_count s a.name ≤ a.max_participants

/-- Activity names are unique (the `name` column is the primary key). -/
def namesNodup (s : Store) : Prop := (s.activities.map Activity.name).Nodup

/-- States reachable from the seeded initial store by signup and unregister
requests (failed requests leave the store unchanged, so they stay inside). -/
inductive Reachable : Store → Prop
  | init : Reachable seededStore
  | signup (s : Store) (activity_name email : String) :
      Reachable s → Reachable (signupState s activity_name email)
  | unregister (s : Store) (activity_name email : String) :
      Reachable s → Reachable (unregisterState s activity_name email)

/-- A small concrete store used to exercise the failure paths: one activity
with capacity 1 whose single slot is taken. -/
def demoStore : Store := ⟨[⟨"A", "demo", "never", 1⟩], [("A", "x@y")]⟩

/-- Python truthiness of `args.token` / `args.repo`: an absent value (`None`)
and the empty string are both falsy. -/
def pyTruthy : Option String → Bool
  | none => false
  | some s => !s.isEmpty

/-- Outcome of `main` in `create_issues.py`, as far as argument validation and
the choice of code path are concerned. -/
inductive MainResult
  | errTokenMissing
  | errRepoMissing
  | dryRunOutput
  | createIssues
deriving DecidableEq, Repr

/-- Argument validation of `main` in `create_issues.py`, in source order: the
token check (skipped under `--dry-run`), then the repo check, then either the
dry-run printout or the creation loop. -/
def mainValidate (dry_run : Bool) (token repo : Option String) : MainResult :=
  if !dry_run && !(pyTruthy token) then .errTokenMissing
  else if !(pyTruthy repo) then .errRepoMissing
  else if dry_run then .dryRunOutput
  else .createIssues

/-- Whether the outcome is one of the two early `sys.exit(1)` validation
failures. -/
def exitsEarlyNonzero : MainResult → Bool
  | .errTokenMissing => true
  | .errRepoMissing => true
  | _ => false

/-- Whether the outcome reaches the loop that issues remote API calls. -/
def makesRemoteCalls : MainResult → Bool
  | .createIssues => true
  | _ => false

/-- One record of `issues_data.json`: title, body, labels. -/
structure IssueRecord where
  title : String
  body : String
  labels : List String
deriving DecidableEq, Repr

/-- Function `create_github_issue` from `create_issues.py`, with the remote
response status code as input (the network is external): it returns the parsed
response on 201 and `None` (after logging) otherwise. -/
def create_github_issue (status : Nat) : Option Unit :=
  if status = 201 then some () else none

/-- The creation loop of `main`: each record paired with the status code the
remote API returns for it; produces the `created_issues` list and the
`failed_issues` titles, in iteration order. -/
def createIssuesLoop : List (IssueRecord × Nat) → List IssueRecord × List String
  | [] => ([], [])
  | (issue, status) :: rest =>
    match create_github_issue status with
    | some _ =>
      let r := createIssuesLoop rest
      (issue :: r.1, r.2)
    | none =>
      let r := createIssuesLoop rest
      (r.1, issue.title :: r.2)

/-- Exit status of a non-dry-run `main` after the loop: `sys.exit(1)` when
`failed_issues` is nonempty, otherwise a normal exit (0). -/
def mainExitCode (items : List (IssueRecord × Nat)) : Nat :=
  if (createIssuesLoop items).2.isEmpty then 0 else 1

theorem lookupActivity_mem {s : Store} {A : String} {act : Activity}
    (h : lookupActivity s A = some act) : act ∈ s.activities ∧ act.name = A := by
  refine ⟨List.mem_of_find?_eq_some h, ?_⟩
  have := List.find?_some h
  simpa using this

theorem signup_not_found (s : Store) (A e : String) (h : lookupActivity s A = none) :
    signup_for_activity s A e = .error notFoundErr := by
  unfold signup_for_activity
  rw [h]

theorem signup_already (s : Store) (A e : String) (act : Activity)
    (h : lookupActivity s A = some act) (hm : (A, e) ∈ s.participants) :
    signup_for_activity s A e = .error alreadyRegisteredErr := by
  unfold signup_for_activity
  rw [h]; dsimp only; rw [if_pos hm]

theorem signup_full (s : Store) (A e : String) (act : Activity)
    (h : lookupActivity s A = some act) (hm : (A, e) ∉ s.participants)
    (hge : registrant_count s A ≥ act.max_participants) :
    signup_for_activity s A e = .error fullErr := by
  unfold signup_for_activity
  rw [h]; dsimp only; rw [if_neg hm, if_pos hge]

theorem signup_success (s : Store) (A e : String) (act : Activity)
    (h : lookupActivity s A = some act) (hm : (A, e) ∉ s.participants)
    (hlt : registrant_count s A < act.max_participants) :
    signup_for_activity s A e =
      .ok ({ s with participants := s.participants ++ [(A, e)] },
           "Signed up " ++ e ++ " for " ++ A) := by
  unfold signup_for_activity
  rw [h]; dsimp only; rw [if_neg hm, if_neg (by omega)]

theorem signup_ok_cases (s : Store) (A e : String) (s' : Store) (msg : String)
    (h : signup_for_activity s A e = .ok (s', msg)) :
    ∃ act, lookupActivity s A = some act ∧ (A, e) ∉ s.participants ∧
      registrant_count s A < act.max_participants ∧
      s' = { s with participants := s.participants ++ [(A, e)] } ∧
      msg = "Signed up " ++ e ++ " for " ++ A := by
  unfold signup_for_activity at h
  cases hl : lookupActivity s A with
  | none => rw [hl] at h; exact absurd h (by simp)
  | some act =>
    rw [hl] at h; dsimp only at h
    by_cases hm : (A, e) ∈ s.participants
    · rw [if_pos hm] at h; exact absurd h (by simp)
    · rw [if_neg hm] at h
      by_cases hge : registrant_count s A ≥ act.max_participants
      · rw [if_pos hge] at h; exact absurd h (by simp)
      · rw [if_neg hge] at h
        simp only [Except.ok.injEq, Prod.mk.injEq] at h
        exact ⟨act, rfl, hm, by omega, h.1.symm, h.2.symm⟩

theorem unregister_not_found (s : Store) (A e : String) (h : lookupActivity s A = none) :
    unregister_from_activity s A e = .error notFoundErr := by
  unfold unregister_from_activity
  rw [h]

theorem unregister_not_registered (s : Store) (A e : String) (act : Activity)
    (h : lookupActivity s A = some act) (hm : (A, e) ∉ s.participants) :
    unregister_from_activity s A e = .error notRegisteredErr := by
  unfold unregister_from_activity
  rw [h]; dsimp only; rw [if_neg hm]

theorem unregister_success (s : Store) (A e : String) (act : Activity)
    (h : lookupActivity s A = some act) (hm : (A, e) ∈ s.participants) :
    unregister_from_activity s A e =
      .ok ({ s with participants :=
               s.participants.filter (fun p => decide (¬(p.1 = A ∧ p.2 = e))) },
           "Unregistered " ++ e ++ " from " ++ A) := by
  unfold unregister_from_activity
  rw [h]; dsimp only; rw [if_pos hm]

theorem unregister_ok_cases (s : Store) (A e : String) (s' : Store) (msg : String)
    (h : unregister_from_activity s A e = .ok (s', msg)) :
    (∃ act, lookupActivity s A = some act) ∧ (A, e) ∈ s.participants ∧
      s' = { s with participants :=
               s.participants.filter (fun p => decide (¬(p.1 = A ∧ p.2 = e))) } ∧
      msg = "Unregistered " ++ e ++ " from " ++ A := by
  unfold unregister_from_activity at h
  cases hl : lookupActivity s A with
  | none => rw [hl] at h; exact absurd h (by simp)
  | some act =>
    rw [hl] at h; dsimp only at h
    by_cases hm : (A, e) ∈ s.participants
    · rw [if_pos hm] at h
      simp only [Except.ok.injEq, Prod.mk.injEq] at h
      exact ⟨⟨act, rfl⟩, hm, h.1.symm, h.2.symm⟩
    · rw [if_neg hm] at h; exact absurd h (by simp)

theorem registrant_count_append (s : Store) (A e n : String) :
    registrant_count { s with participants := s.participants ++ [(A, e)] } n =
      registrant_count s n + (if A = n then 1 else 0) := by
  unfold registrant_count
  simp only [List.filter_append, List.length_append]
  by_cases hn : A = n <;> simp [hn, List.filter]

theorem registrant_count_filter_le (s : Store) (q : String × String → Bool) (n : String) :
    registrant_count { s with participants := s.participants.filter q } n ≤
      registrant_count s n := by
  unfold registrant_count
  exact (List.Sublist.filter _ (List.filter_sublist _)).length_le

theorem filter_delete_eq_self (l : List (String × String)) (A e : String)
    (hne : (A, e) ∉ l) :
    l.filter (fun p => decide (¬(p.1 = A ∧ p.2 = e))) = l := by
  refine List.filter_eq_self.2 (fun a ha => ?_)
  simp only [decide_eq_true_eq]
  rintro ⟨h1, h2⟩
  exact hne (by obtain ⟨a1, a2⟩ := a; simp_all)

theorem count_after_delete (l : List (String × String)) (A e : String)
    (hnd : l.Nodup) (hm : (A, e) ∈ l) :
    ((l.filter (fun p => decide (¬(p.1 = A ∧ p.2 = e)))).filter
        (fun p => decide (p.1 = A))).length + 1
      = (l.filter (fun p => decide (p.1 = A))).length := by
  induction l with
  | nil => cases hm
  | cons hd tl ih =>
    rw [List.nodup_cons] at hnd
    by_cases hhd : hd = (A, e)
    · subst hhd
      rw [List.filter_cons_of_neg (by simp), List.filter_cons_of_pos (by simp),
          filter_delete_eq_self tl A e hnd.1, List.length_cons]
    · have hm2 : (A, e) ∈ tl := by
        cases hm with
        | head => exact absurd rfl hhd
        | tail _ h => exact h
      have h3 := ih hnd.2 hm2
      have hkeep : decide (¬(hd.1 = A ∧ hd.2 = e)) = true := by
        simp only [decide_eq_true_eq]
        rintro ⟨h1, h2⟩
        exact hhd (Prod.ext_iff.2 ⟨h1, h2⟩)
      rw [@List.filter_cons_of_pos _ (fun p => decide (¬(p.1 = A ∧ p.2 = e))) hd tl hkeep]
      by_cases hname : hd.1 = A
      · rw [@List.filter_cons_of_pos _ (fun p => decide (p.1 = A)) hd _ (by simp [hname]),
            @List.filter_cons_of_pos _ (fun p => decide (p.1 = A)) hd tl (by simp [hname]),
            List.length_cons, List.length_cons]
        omega
      · rw [@List.filter_cons_of_neg _ (fun p => decide (p.1 = A)) hd _ (by simp [hname]),
            @List.filter_cons_of_neg _ (fun p => decide (p.1 = A)) hd tl (by simp [hname])]
        omega

theorem signupState_activities (s : Store) (A e : String) :
    (signupState s A e).activities = s.activities := by
  unfold signupState
  cases hr : signup_for_activity s A e with
  | error err => rfl
  | ok v =>
    obtain ⟨s', msg⟩ := v
    obtain ⟨act, -, -, -, hs, -⟩ := signup_ok_cases s A e s' msg hr
    show s'.activities = s.activities
    rw [hs]

theorem unregisterState_activities (s : Store) (A e : String) :
    (unregisterState s A e).activities = s.activities := by
  unfold unregisterState
  cases hr : unregister_from_activity s A e with
  | error err => rfl
  | ok v =>
    obtain ⟨s', msg⟩ := v
    obtain ⟨-, -, hs, -⟩ := unregister_ok_cases s A e s' msg hr
    show s'.activities = s.activities
    rw [hs]

theorem activity_eq_of_name_eq (s : Store) (hn : namesNodup s)
    (a b : Activity) (ha : a ∈ s.activities) (hb : b ∈ s.activities)
    (h : a.name = b.name) : a = b :=
  List.inj_on_of_nodup_map hn ha hb h

theorem I1_signup (s : Store) (A e : String) (h1 : I1 s) : I1 (signupState s A e) := by
  unfold signupState
  cases hr : signup_for_activity s A e with
  | error err => exact h1
  | ok v =>
    obtain ⟨s', msg⟩ := v
    obtain ⟨act, hl, hm, hlt, hs, -⟩ := signup_ok_cases s A e s' msg hr
    show I1 s'
    subst hs
    unfold I1 at h1 ⊢
    exact List.Nodup.append h1 (List.nodup_singleton _)
      (fun x hx hx1 => hm ((List.mem_singleton.1 hx1) ▸ hx))

theorem I2_signup (s : Store) (A e : String) (hn : namesNodup s) (h2 : I2 s) :
    I2 (signupState s A e) := by
  unfold signupState
  cases hr : signup_for_activity s A e with
  | error err => exact h2
  | ok v =>
    obtain ⟨s', msg⟩ := v
    obtain ⟨act, hl, hm, hlt, hs, -⟩ := signup_ok_cases s A e s' msg hr
    show I2 s'
    subst hs
    unfold I2 at h2 ⊢
    intro a ha
    simp only at ha
    have hcnt := registrant_count_append s A e a.name
    rw [hcnt]
    by_cases hAn : A = a.name
    · obtain ⟨hact_mem, hact_name⟩ := lookupActivity_mem hl
      have hacta : act = a :=
        activity_eq_of_name_eq s hn act a hact_mem ha (by rw [hact_name, hAn])
      subst hacta
      rw [if_pos hAn, ← hAn]
      omega
    · rw [if_neg hAn]
      simpa using h2 a ha

theorem I1_unregister (s : Store) (A e : String) (h1 : I1 s) : I1 (unregisterState s A e) := by
  unfold unregisterState
  cases hr : unregister_from_activity s A e with
  | error err => exact h1
  | ok v =>
    obtain ⟨s', msg⟩ := v
    obtain ⟨-, -, hs, -⟩ := unregister_ok_cases s A e s' msg hr
    show I1 s'
    subst hs
    exact List.Nodup.filter _ h1

theorem I2_unregister (s : Store) (A e : String) (h2 : I2 s) : I2 (unregisterState s A e) := by
  unfold unregisterState
  cases hr : unregister_from_activity s A e with
  | error err => exact h2
  | ok v =>
    obtain ⟨s', msg⟩ := v
    obtain ⟨-, -, hs, -⟩ := unregister_ok_cases s A e s' msg hr
    show I2 s'
    subst hs
    unfold I2 at h2 ⊢
    intro a ha
    simp only at ha
    exact le_trans (registrant_count_filter_le s _ a.name) (h2 a ha)

theorem namesNodup_seeded : namesNodup seededStore := by
  unfold namesNodup; decide

theorem I1_seeded : I1 seededStore := by
  unfold I1; decide

theorem I2_seeded : I2 seededStore := by
  unfold I2; decide

theorem reachable_inv (s : Store) (h : Reachable s) : namesNodup s ∧ I1 s ∧ I2 s := by
  induction h with
  | init => exact ⟨namesNodup_seeded, I1_seeded, I2_seeded⟩
  | signup s' A e _ ih =>
    refine ⟨?_, I1_signup s' A e ih.2.1, I2_signup s' A e ih.1 ih.2.2⟩
    unfold namesNodup
    rw [signupState_activities]
    exact ih.1
  | unregister s' A e _ ih =>
    refine ⟨?_, I1_unregister s' A e ih.2.1, I2_unregister s' A e ih.2.2⟩
    unfold namesNodup
    rw [unregisterState_activities]
    exact ih.1

theorem signupState_of_error (s : Store) (A e : String) (err : HTTPError)
    (h : signup_for_activity s A e = .error err) : signupState s A e = s := by
  unfold signupState; rw [h]

theorem signupState_of_ok (s : Store) (A e : String) (s' : Store) (msg : String)
    (h : signup_for_activity s A e = .ok (s', msg)) : signupState s A e = s' := by
  unfold signupState; rw [h]

theorem unregisterState_of_error (s : Store) (A e : String) (err : HTTPError)
    (h : unregister_from_activity s A e = .error err) : unregisterState s A e = s := by
  unfold unregisterState; rw [h]

theorem unregisterState_of_ok (s : Store) (A e : String) (s' : Store) (msg : String)
    (h : unregister_from_activity s A e = .ok (s', msg)) : unregisterState s A e = s' := by
  unfold unregisterState; rw [h]

theorem participantsFor_append_self (s : Store) (A e : String) :
    participantsFor { s with participants := s.participants ++ [(A, e)] } A
      = participantsFor s A ++ [e] := by
  unfold participantsFor
  rw [List.filter_append, List.map_append]
  congr 1
  rw [List.filter_cons_of_pos (by simp)]
  simp

theorem participantsFor_append_other (s : Store) (A e n : String) (hn : n ≠ A) :
    participantsFor { s with participants := s.participants ++ [(A, e)] } n
      = participantsFor s n := by
  unfold participantsFor
  rw [List.filter_append, List.filter_cons_of_neg (by simpa using fun h => hn h.symm)]
  simp

theorem not_mem_filter_delete (l : List (String × String)) (A e : String) :
    (A, e) ∉ l.filter (fun p => decide (¬(p.1 = A ∧ p.2 = e))) := by
  intro hx
  have := List.of_mem_filter hx
  simp at this

theorem mem_build_activity_dict (s : Store) (a : Activity) (ha : a ∈ s.activities) :
    (a.name, (⟨a.description, a.schedule, a.max_participants,
        participantsFor s a.name⟩ : ActivityInfo)) ∈ build_activity_dict s := by
  unfold build_activity_dict
  exact List.mem_map_of_mem _ ha

theorem createIssuesLoop_lengths (items : List (IssueRecord × Nat)) :
    (createIssuesLoop items).1.length + (createIssuesLoop items).2.length = items.length := by
  induction items with
  | nil => rfl
  | cons hd tl ih =>
    obtain ⟨issue, status⟩ := hd
    unfold createIssuesLoop create_github_issue
    by_cases h : status = 201
    · rw [if_pos h]
      simp only [List.length_cons]
      omega
    · rw [if_neg h]
      simp only [List.length_cons]
      omega

theorem createIssuesLoop_failed (items : List (IssueRecord × Nat)) :
    (createIssuesLoop items).2
      = (items.filter (fun it => decide (¬ it.2 = 201))).map (fun it => it.1.title) := by
  induction items with
  | nil => rfl
  | cons hd tl ih =>
    obtain ⟨issue, status⟩ := hd
    unfold createIssuesLoop create_github_issue
    by_cases h : status = 201
    · rw [if_pos h, List.filter_cons_of_neg (by simp [h])]
      simpa using ih
    · rw [if_neg h, List.filter_cons_of_pos (by simp [h])]
      simpa using ih

/-- Claim C1: every state reachable from the seeded initial store by any
sequence of signup and unregister operations satisfies invariant I1 (each
`(activity_name, email)` pair appears at most once in the participants table)
and invariant I2 (each activity's registration count is at most its
`max_participants`). -/
theorem C1_reachable_invariants (s : Store) (h : Reachable s) : I1 s ∧ I2 s :=
  ⟨(reachable_inv s h).2.1, (reachable_inv s h).2.2⟩

theorem C1_witness :
    I1 (signupState seededStore "Chess Club" "new@school.edu")
    ∧ I2 (signupState seededStore "Chess Club" "new@school.edu") :=
  C1_reachable_invariants _
    (Reachable.signup seededStore "Chess Club" "new@school.edu" Reachable.init)

/-- Claim C2: `signup_for_activity` checks its preconditions in the fixed
source order.  An unknown activity fails with 404 NotFound for every email; an
already-registered pair fails with 400 AlreadyRegistered even when the
activity is also at capacity (the conjunct places no bound on the count); a
full activity fails with 400 Full; otherwise the signup succeeds.  Every
failure leaves the store, and hence the registrant count, unchanged. -/
theorem C2_signup_precondition_order (s : Store) (A e : String) :
    (lookupActivity s A = none →
       signup_for_activity s A e = .error notFoundErr ∧ signupState s A e = s)
    ∧ (∀ act, lookupActivity s A = some act → (A, e) ∈ s.participants →
       signup_for_activity s A e = .error alreadyRegisteredErr ∧ signupState s A e = s)
    ∧ (∀ act, lookupActivity s A = some act → (A, e) ∉ s.participants →
       act.max_participants ≤ registrant_count s A →
       signup_for_activity s A e = .error fullErr ∧ signupState s A e = s)
    ∧ (∀ act, lookupActivity s A = some act → (A, e) ∉ s.participants →
       registrant_count s A < act.max_participants →
       ∃ s' msg, signup_for_activity s A e = .ok (s', msg)) := by
  refine ⟨fun h => ?_, fun act h hm => ?_, fun act h hm hge => ?_, fun act h hm hlt => ?_⟩
  · have he := signup_not_found s A e h
    exact ⟨he, signupState_of_error s A e _ he⟩
  · have he := signup_already s A e act h hm
    exact ⟨he, signupState_of_error s A e _ he⟩
  · have he := signup_full s A e act h hm hge
    exact ⟨he, signupState_of_error s A e _ he⟩
  · exact ⟨_, _, signup_success s A e act h hm hlt⟩

theorem C2_witness :
    signup_for_activity demoStore "Missing" "a@b" = .error notFoundErr
    ∧ signup_for_activity demoStore "A" "x@y" = .error alreadyRegisteredErr
    ∧ signup_for_activity demoStore "A" "z@w" = .error fullErr :=
  ⟨((C2_signup_precondition_order demoStore "Missing" "a@b").1 rfl).1,
   ((C2_signup_precondition_order demoStore "A" "x@y").2.1
      ⟨"A", "demo", "never", 1⟩ rfl (by decide)).1,
   ((C2_signup_precondition_order demoStore "A" "z@w").2.2.1
      ⟨"A", "demo", "never", 1⟩ rfl (by decide) (by decide)).1⟩

/-- Claim C3: when the activity exists, the email is not yet registered and
the count is below capacity, signup succeeds, inserting exactly the one row
`(A, e)` at the end of the participants table and leaving the activities
table untouched; the registrant count of `A` becomes `N + 1`, the rosters of
all other activities are unchanged, and the returned confirmation message
references both the activity name and the email. -/
theorem C3_signup_success_effect (s : Store) (A e : String) (act : Activity)
    (h : lookupActivity s A = some act) (hm : (A, e) ∉ s.participants)
    (hlt : registrant_count s A < act.max_participants) :
    signup_for_activity s A e =
      .ok ({ s with participants := s.participants ++ [(A, e)] },
           "Signed up " ++ e ++ " for " ++ A)
    ∧ registrant_count (signupState s A e) A = registrant_count s A + 1
    ∧ (signupState s A e).activities = s.activities
    ∧ (∀ n, n ≠ A → participantsFor (signupState s A e) n = participantsFor s n) := by
  have hok := signup_success s A e act h hm hlt
  have hst := signupState_of_ok s A e _ _ hok
  refine ⟨hok, ?_, ?_, fun n hn => ?_⟩
  · rw [hst, registrant_count_append, if_pos rfl]
  · rw [hst]
  · rw [hst]
    exact participantsFor_append_other s A e n hn

theorem C3_witness :
    signup_for_activity seededStore "Chess Club" "new@school.edu" =
      .ok ({ seededStore with
               participants := seededStore.participants ++ [("Chess Club", "new@school.edu")] },
           "Signed up " ++ "new@school.edu" ++ " for " ++ "Chess Club")
    ∧ registrant_count (signupState seededStore "Chess Club" "new@school.edu") "Chess Club"
        = registrant_count seededStore "Chess Club" + 1 :=
  ⟨(C3_signup_success_effect seededStore "Chess Club" "new@school.edu"
      ⟨"Chess Club", "Learn strategies and compete in chess tournaments",
       "Fridays, 3:30 PM - 5:00 PM", 12⟩ rfl (by decide) (by decide)).1,
   (C3_signup_success_effect seededStore "Chess Club" "new@school.edu"
      ⟨"Chess Club", "Learn strategies and compete in chess tournaments",
       "Fridays, 3:30 PM - 5:00 PM", 12⟩ rfl (by decide) (by decide)).2.1⟩

/-- Claim C4: `unregister_from_activity` fails with 404 NotFound when the
activity does not exist (for every email), fails with 400 NotRegistered when
the activity exists but the pair is not registered, and both failures leave
the store unchanged.  When the registration exists (under invariant I1, which
the primary key guarantees), it succeeds, deletes exactly that row so the
count drops by one, returns a confirmation, and an immediately following
unregister of the same pair fails with NotRegistered. -/
theorem C4_unregister_spec (s : Store) (A e : String) :
    (lookupActivity s A = none →
       unregister_from_activity s A e = .error notFoundErr ∧ unregisterState s A e = s)
    ∧ (∀ act, lookupActivity s A = some act → (A, e) ∉ s.participants →
       unregister_from_activity s A e = .error notRegisteredErr ∧ unregisterState s A e = s)
    ∧ (∀ act, lookupActivity s A = some act → (A, e) ∈ s.participants → I1 s →
       unregister_from_activity s A e =
         .ok ({ s with participants :=
                  s.participants.filter (fun p => decide (¬(p.1 = A ∧ p.2 = e))) },
              "Unregistered " ++ e ++ " from " ++ A)
       ∧ registrant_count (unregisterState s A e) A + 1 = registrant_count s A
       ∧ unregister_from_activity (unregisterState s A e) A e = .error notRegisteredErr) := by
  refine ⟨fun h => ?_, fun act h hm => ?_, fun act h hm hnd => ?_⟩
  · have he := unregister_not_found s A e h
    exact ⟨he, unregisterState_of_error s A e _ he⟩
  · have he := unregister_not_registered s A e act h hm
    exact ⟨he, unregisterState_of_error s A e _ he⟩
  · have hok := unregister_success s A e act h hm
    have hst := unregisterState_of_ok s A e _ _ hok
    refine ⟨hok, ?_, ?_⟩
    · rw [hst]
      exact count_after_delete s.participants A e hnd hm
    · rw [hst]
      exact unregister_not_registered _ A e act h (not_mem_filter_delete s.participants A e)

theorem C4_witness :
    unregister_from_activity demoStore "Missing" "x@y" = .error notFoundErr
    ∧ unregister_from_activity demoStore "A" "z@w" = .error notRegisteredErr
    ∧ registrant_count (unregisterState demoStore "A" "x@y") "A" + 1
        = registrant_count demoStore "A"
    ∧ unregister_from_activity (unregisterState demoStore "A" "x@y") "A" "x@y"
        = .error notRegisteredErr :=
  ⟨((C4_unregister_spec demoStore "Missing" "x@y").1 rfl).1,
   ((C4_unregister_spec demoStore "A" "z@w").2.1 ⟨"A", "demo", "never", 1⟩ rfl (by decide)).1,
   ((C4_unregister_spec demoStore "A" "x@y").2.2 ⟨"A", "demo", "never", 1⟩ rfl (by decide)
      (by unfold I1; decide)).2.1,
   ((C4_unregister_spec demoStore "A" "x@y").2.2 ⟨"A", "demo", "never", 1⟩ rfl (by decide)
      (by unfold I1; decide)).2.2⟩

/-- Claim C5: `build_activity_dict` is a total pure function of the store (so
it never fails and, by construction in this embedding, does not change it);
its keys are exactly the activity names present, each mapped to that
activity's description, schedule, `max_participants` and its participants in
stored insertion order; an empty store yields the empty mapping. -/
theorem C5_list_activities_spec (s : Store) :
    ((build_activity_dict s).map Prod.fst = s.activities.map Activity.name)
    ∧ (∀ a ∈ s.activities,
        (a.name, (⟨a.description, a.schedule, a.max_participants,
            participantsFor s a.name⟩ : ActivityInfo)) ∈ build_activity_dict s)
    ∧ (s.activities = [] → build_activity_dict s = []) := by
  refine ⟨?_, fun a ha => mem_build_activity_dict s a ha, fun h => ?_⟩
  · unfold build_activity_dict
    rw [List.map_map]
    rfl
  · unfold build_activity_dict
    rw [h]
    rfl

theorem C5_witness :
    ("Chess Club", (⟨"Learn strategies and compete in chess tournaments",
        "Fridays, 3:30 PM - 5:00 PM", 12,
        ["michael@mergington.edu", "daniel@mergington.edu"]⟩ : ActivityInfo))
      ∈ build_activity_dict seededStore :=
  (C5_list_activities_spec seededStore).2.1
    ⟨"Chess Club", "Learn strategies and compete in chess tournaments",
     "Fridays, 3:30 PM - 5:00 PM", 12⟩ (by decide)

/-- Claim C6: `init_db` seeds the fixed activity set (with rosters) exactly
when the activities table has zero rows; against a store with at least one
activity row it changes nothing; and running it twice equals running it
once. -/
theorem C6_init_db_spec (s : Store) :
    (s.activities = [] →
       init_db s = ⟨seed_activities, s.participants ++ seed_participants⟩)
    ∧ (s.activities ≠ [] → init_db s = s)
    ∧ init_db (init_db s) = init_db s := by
  by_cases h : s.activities.length = 0
  · have he : s.activities = [] := List.length_eq_zero.1 h
    have h1 : init_db s = ⟨seed_activities, s.participants ++ seed_participants⟩ := by
      unfold init_db
      rw [if_pos h, he]
      rfl
    refine ⟨fun _ => h1, fun hne => absurd he hne, ?_⟩
    have h2 : init_db (⟨seed_activities, s.participants ++ seed_participants⟩ : Store)
        = ⟨seed_activities, s.participants ++ seed_participants⟩ := by
      unfold init_db
      rw [if_neg (fun hc => absurd (show seed_activities.length = 0 from hc) (by decide))]
    rw [h1, h2]
  · have h2 : init_db s = s := by
      unfold init_db
      rw [if_neg h]
    refine ⟨fun he => absurd (by rw [he]; rfl) h, fun _ => h2, by rw [h2, h2]⟩

theorem C6_witness :
    init_db (⟨[], []⟩ : Store) = ⟨seed_activities, seed_participants⟩
    ∧ init_db demoStore = demoStore
    ∧ init_db (init_db (⟨[], []⟩ : Store)) = init_db (⟨[], []⟩ : Store) :=
  ⟨by
     have := (C6_init_db_spec (⟨[], []⟩ : Store)).1 rfl
     simpa using this,
   (C6_init_db_spec demoStore).2.1 (by decide),
   (C6_init_db_spec (⟨[], []⟩ : Store)).2.2⟩

/-- Claim C7: no exposed operation ever updates or deletes an activity row:
after any signup or unregister request, successful or not, the activities
table is equal to what it was before (`build_activity_dict`, the read path, is
a pure function of the store and mutates nothing by construction). -/
theorem C7_activities_frame (s : Store) (A e : String) :
    (signupState s A e).activities = s.activities
    ∧ (unregisterState s A e).activities = s.activities :=
  ⟨signupState_activities s A e, unregisterState_activities s A e⟩

/-- Claim C8 counterexample: a `--dry-run` invocation with the bearer
credential absent but the repo present does not exit with an error — it prints
the planned issues and exits 0 — refuting the claim that every invocation with
an absent credential exits non-zero.  (No remote call is made, but the claimed
error exit does not happen.) -/
theorem C8_counterexample :
    mainValidate true none (some "owner/repo") = MainResult.dryRunOutput
    ∧ exitsEarlyNonzero (mainValidate true none (some "owner/repo")) = false
    ∧ makesRemoteCalls (mainValidate true none (some "owner/repo")) = false :=
  ⟨rfl, rfl, rfl⟩

/-- Claim C8 (amended): the credential requirement applies only to
non-preview invocations.  In any non-dry-run invocation with the credential
absent or empty the utility prints an error and exits non-zero without making
any remote call; in any invocation with the repo absent or empty — unless the
credential check already fired first — it prints an error and exits non-zero
without making any remote call. -/
theorem C8_arg_validation (dry_run : Bool) (token repo : Option String) :
    (dry_run = false → pyTruthy token = false →
       mainValidate dry_run token repo = .errTokenMissing
       ∧ makesRemoteCalls (mainValidate dry_run token repo) = false)
    ∧ (pyTruthy repo = false → (dry_run = true ∨ pyTruthy token = true) →
       mainValidate dry_run token repo = .errRepoMissing
       ∧ makesRemoteCalls (mainValidate dry_run token repo) = false) := by
  constructor
  · intro hd ht
    have hv : mainValidate dry_run token repo = .errTokenMissing := by
      subst hd
      unfold mainValidate
      rw [ht]
      rfl
    exact ⟨hv, by rw [hv]; rfl⟩
  · intro hr hor
    have hv : mainValidate dry_run token repo = .errRepoMissing := by
      unfold mainValidate
      cases hor with
      | inl h => subst h; rw [hr]; rfl
      | inr h => rw [h, hr]; cases dry_run <;> rfl
    exact ⟨hv, by rw [hv]; rfl⟩

theorem C8_witness :
    mainValidate false none (some "owner/repo") = MainResult.errTokenMissing
    ∧ mainValidate true (some "tok") none = MainResult.errRepoMissing :=
  ⟨((C8_arg_validation false none (some "owner/repo")).1 rfl rfl).1,
   ((C8_arg_validation true (some "tok") none).2 rfl (Or.inl rfl)).1⟩

/-- Claim C9: the creation loop treats a non-201 response as a per-item
failure and continues through every remaining record: the created and failed
lists together account for every record, the failed titles are exactly those
of the records with non-201 responses (in order, so no failure aborts the loop
early), and the utility exits non-zero if and only if at least one record
failed. -/
theorem C9_issue_loop_spec (items : List (IssueRecord × Nat)) :
    (createIssuesLoop items).1.length + (createIssuesLoop items).2.length = items.length
    ∧ (createIssuesLoop items).2
        = (items.filter (fun it => decide (¬ it.2 = 201))).map (fun it => it.1.title)
    ∧ (mainExitCode items ≠ 0 ↔ ∃ it ∈ items, it.2 ≠ 201) := by
  refine ⟨createIssuesLoop_lengths items, createIssuesLoop_failed items, ?_⟩
  unfold mainExitCode
  rw [createIssuesLoop_failed items]
  constructor
  · intro h
    by_contra hno
    push_neg at hno
    have hnil : items.filter (fun it => decide (¬ it.2 = 201)) = [] := by
      rw [List.filter_eq_nil_iff]
      intro a ha
      simpa using hno a ha
    rw [hnil] at h
    simp at h
  · rintro ⟨it, hmem, hne⟩ h
    have hmem2 : it ∈ items.filter (fun it => decide (¬ it.2 = 201)) :=
      List.mem_filter.2 ⟨hmem, by simpa using hne⟩
    by_cases hemp :
        ((items.filter (fun it => decide (¬ it.2 = 201))).map (fun it => it.1.title)).isEmpty
    · rw [List.isEmpty_iff, List.map_eq_nil_iff] at hemp
      rw [hemp] at hmem2
      cases hmem2
    · rw [if_neg (by simpa using hemp)] at h
      cases h

theorem C9_witness :
    mainExitCode [(⟨"ok issue", "b", []⟩, 201), (⟨"bad issue", "b", []⟩, 422)] ≠ 0
    ∧ (createIssuesLoop [(⟨"ok issue", "b", []⟩, 201), (⟨"bad issue", "b", []⟩, 422)]).2
        = ["bad issue"] :=
  ⟨(C9_issue_loop_spec [(⟨"ok issue", "b", []⟩, 201), (⟨"bad issue", "b", []⟩, 422)]).2.2.2
     ⟨(⟨"bad issue", "b", []⟩, 422), by decide, by decide⟩,
   by
     rw [(C9_issue_loop_spec [(⟨"ok issue", "b", []⟩, 201), (⟨"bad issue", "b", []⟩, 422)]).2.1]
     rfl⟩

/-- Claim C10: signup performs no validation of the email value: for every
string (the witness uses the empty string), if the activity exists, the pair
is unregistered and the activity is below capacity, the signup succeeds, the
exact string is stored as a registrant, it appears in the activity's roster in
subsequent `build_activity_dict` output, and it counts toward capacity. -/
theorem C10_signup_accepts_any_email (s : Store) (A e : String) (act : Activity)
    (h : lookupActivity s A = some act) (hm : (A, e) ∉ s.participants)
    (hlt : registrant_count s A < act.max_participants) :
    (∃ s' msg, signup_for_activity s A e = .ok (s', msg))
    ∧ e ∈ participantsFor (signupState s A e) A
    ∧ (∃ info, (A, info) ∈ build_activity_dict (signupState s A e) ∧ e ∈ info.participants)
    ∧ registrant_count (signupState s A e) A = registrant_count s A + 1 := by
  have hok := signup_success s A e act h hm hlt
  have hst := signupState_of_ok s A e _ _ hok
  obtain ⟨hamem, haname⟩ := lookupActivity_mem h
  have hpmem : e ∈ participantsFor (signupState s A e) A := by
    rw [hst, participantsFor_append_self]
    simp
  refine ⟨⟨_, _, hok⟩, hpmem, ?_, ?_⟩
  · refine ⟨⟨act.description, act.schedule, act.max_participants,
      participantsFor (signupState s A e) A⟩, ?_, hpmem⟩
    have hmem2 : act ∈ (signupState s A e).activities := by
      rw [hst]
      exact hamem
    have := mem_build_activity_dict (signupState s A e) act hmem2
    rw [haname] at this
    exact this
  · rw [hst, registrant_count_append, if_pos rfl]

theorem C10_witness :
    "" ∈ participantsFor (signupState seededStore "Chess Club" "") "Chess Club"
    ∧ registrant_count (signupState seededStore "Chess Club" "") "Chess Club"
        = registrant_count seededStore "Chess Club" + 1 :=
  ⟨(C10_signup_accepts_any_email seededStore "Chess Club" ""
      ⟨"Chess Club", "Learn strategies and compete in chess tournaments",
       "Fridays, 3:30 PM - 5:00 PM", 12⟩ rfl (by decide) (by decide)).2.1,
   (C10_signup_accepts_any_email seededStore "Chess Club" ""
      ⟨"Chess Club", "Learn strategies and compete in chess tournaments",
       "Fridays, 3:30 PM - 5:00 PM", 12⟩ rfl (by decide) (by decide)).2.2.2⟩
